import Mathlib

/-!
Shallow embedding of the session-client and review-submission logic of the
unical-dimes-professors frontend (src/frontend/src/context/AuthContext.tsx,
src/frontend/src/api/client.ts, src/frontend/src/components/StarRating.tsx
ReviewForm, and the RequireRole route guard).

JavaScript strings and numbers are modelled as Lean `String` and `Nat`;
`localStorage` as a map `String → Option String`; network calls are modelled
by passing the server's response in as a parameter and recording each
dispatched request in an explicit call trace, so that properties about which
requests are issued, and in which order, become properties of the trace.
-/

namespace DimesAuth

/-- Role record (api/client.ts, interface Role). Only the name is read by
`hasRole`; id is kept for fidelity. -/
structure Role where
  id : Nat
  name : String
deriving DecidableEq, Repr

/-- AuthenticatedUser (api/client.ts). Fields not read by the embedded
functions (timestamps, is_active) are omitted from the model. -/
structure AuthenticatedUser where
  id : Nat
  email : String
  roles : List Role
deriving DecidableEq, Repr

/-- TokenResponse (api/client.ts): body of POST /auth/login and
POST /auth/refresh. -/
structure TokenResponse where
  access_token : String
  refresh_token : String
  token_type : String
deriving DecidableEq, Repr

/-- AuthContext.tsx line 33. -/
def ACCESS_TOKEN_KEY : String := "unical_dimes_access_token"

/-- AuthContext.tsx line 34. -/
def REFRESH_TOKEN_KEY : String := "unical_dimes_refresh_token"

/-- Browser localStorage, modelled as a key-value map. -/
def Storage : Type := String → Option String

/-- Models `localStorage.setItem(k, v)`. -/
def Storage.setItem (s : Storage) (k v : String) : Storage :=
  fun q => if q = k then some v else s q

/-- Models `localStorage.removeItem(k)`. -/
def Storage.removeItem (s : Storage) (k : String) : Storage :=
  fun q => if q = k then none else s q

/-- The client-side mutable state touched by AuthContext.tsx:
`localStorage`, the axios default Authorization header
(api/client.ts, `api.defaults.headers.common.Authorization`), the React
`accessToken` state, the `refreshTokenRef` ref, and the `user` state. -/
structure ClientState where
  storage : Storage
  defaultAuthHeader : Option String
  accessTokenState : Option String
  refreshTokenRef : Option String
  user : Option AuthenticatedUser

/-- setAccessToken (api/client.ts lines 134-140): mirrors the access token
into the default Authorization header of the axios instance, or deletes the
header when passed null. -/
def setAccessToken (token : Option String) (s : ClientState) : ClientState :=
  match token with
  | some t => { s with defaultAuthHeader := some ("Bearer " ++ t) }
  | none => { s with defaultAuthHeader := none }

/-- persistTokens (AuthContext.tsx lines 42-48): store both tokens under the
two storage keys, mirror the access token into the default header and React
state, and remember the refresh token in the ref. -/
def persistTokens (tokens : TokenResponse) (s : ClientState) : ClientState :=
  let s1 := { s with storage := s.storage.setItem ACCESS_TOKEN_KEY tokens.access_token }
  let s2 := { s1 with storage := s1.storage.setItem REFRESH_TOKEN_KEY tokens.refresh_token }
  let s3 := setAccessToken (some tokens.access_token) s2
  let s4 := { s3 with accessTokenState := some tokens.access_token }
  { s4 with refreshTokenRef := some tokens.refresh_token }

/-- clearTokens (AuthContext.tsx lines 50-56). -/
def clearTokens (s : ClientState) : ClientState :=
  let s1 := { s with storage := (s.storage.removeItem ACCESS_TOKEN_KEY).removeItem REFRESH_TOKEN_KEY }
  let s2 := setAccessToken none s1
  let s3 := { s2 with accessTokenState := none }
  { s3 with refreshTokenRef := none }

/-- Requests the auth context dispatches to the server. -/
inductive AuthCall where
  | refresh (refreshToken : String)
  | logout (refreshToken : String)
deriving DecidableEq, Repr

/-- handleLogout (AuthContext.tsx lines 58-73). The current refresh token is
read BEFORE the local state is cleared; the server revoke call
(`authApi.logout`) is dispatched only when `notifyServer` is true and a
refresh token was held, and happens after the local clear. Its outcome
`logoutResult` (true = resolved, false = rejected) is swallowed by the
try/catch: the only effect of a rejection is the `console.warn`, modelled by
the returned Bool. The function itself never throws. -/
def handleLogout (notifyServer : Bool) (logoutResult : Bool) (s : ClientState) :
    ClientState × List AuthCall × Bool :=
  let refreshToken := s.refreshTokenRef
  let s1 := clearTokens s
  let s2 := { s1 with user := none }
  match notifyServer, refreshToken with
  | true, some rt => (s2, [AuthCall.logout rt], !logoutResult)
  | true, none => (s2, [], false)
  | false, _ => (s2, [], false)

/-- Result of refreshAccessToken as seen by its caller: resolves to the new
access token, resolves to null (no refresh token held), or rejects
(re-throws the refresh error). -/
inductive RefreshOutcome where
  | success (newAccessToken : String)
  | noToken
  | failure
deriving DecidableEq, Repr

/-- refreshAccessToken (AuthContext.tsx lines 75-88). `refreshServer` maps
the refresh token sent in the request body to the server's answer
(`some data` = 200 with a new token pair, `none` = rejection). When no
refresh token is held it returns null WITHOUT dispatching any request. On
success it persists the new pair; on failure it logs out locally
(`handleLogout(false)`, so no revoke call) and re-throws. -/
def refreshAccessToken (refreshServer : String → Option TokenResponse) (s : ClientState) :
    ClientState × List AuthCall × RefreshOutcome :=
  match s.refreshTokenRef with
  | none => (s, [], RefreshOutcome.noToken)
  | some rt =>
    match refreshServer rt with
    | some data =>
      (persistTokens data s, [AuthCall.refresh rt], RefreshOutcome.success data.access_token)
    | none =>
      let (s1, calls, _) := handleLogout false false s
      (s1, AuthCall.refresh rt :: calls, RefreshOutcome.failure)

/-- Helper for `stringIncludes`: does `pat` occur as a contiguous run inside
the character list? -/
def stringIncludesAux (pat : List Char) : List Char → Bool
  | [] => pat.isEmpty
  | c :: rest => pat.isPrefixOf (c :: rest) || stringIncludesAux pat rest

/-- JavaScript `String.prototype.includes` (substring test), as used on
request URLs in AuthContext.tsx lines 118-121. -/
def stringIncludes (s pat : String) : Bool :=
  stringIncludesAux pat.data s.data

/-- AuthContext.tsx lines 118-121: a request URL targets an auth endpoint
when it contains /auth/login, /auth/register or /auth/refresh. -/
def isAuthRoute (url : String) : Bool :=
  stringIncludes url "/auth/login" ||
  stringIncludes url "/auth/register" ||
  stringIncludes url "/auth/refresh"

/-- The axios request config as read and written by the interceptor: the
URL, the per-request `_retry` marker, and the per-request Authorization
header. -/
structure RequestConfig where
  url : String
  retryMark : Bool
  authHeader : Option String
deriving DecidableEq, Repr

/-- The rejected axios error handed to the response interceptor:
`error.config` and `error.response?.status`. -/
structure AxiosErr where
  config : RequestConfig
  status : Option Nat
deriving DecidableEq, Repr

/-- What the interceptor returns for a rejected response: either it re-issues
the original request (with `_retry` set and a fresh Authorization header),
or it rejects, handing an error back to the caller. -/
inductive InterceptResult where
  | retried (req : RequestConfig)
  | rejected (e : AxiosErr)
deriving DecidableEq, Repr

/-- The guard of AuthContext.tsx lines 123-128: status 401, not an auth
route, a refresh token currently held, and the request not already retried. -/
def refreshGuard (e : AxiosErr) (s : ClientState) : Bool :=
  e.status = some 401 && !isAuthRoute e.config.url &&
    s.refreshTokenRef.isSome && !e.config.retryMark

/-- responseInterceptor error handler (AuthContext.tsx lines 115-145).
When the guard passes: mark `_retry`, await refreshAccessToken; on a
non-null new token, re-dispatch the original request with the new bearer
header; on null fall through; on rejection run `handleLogout(false)` and
fall through. Every fall-through path rejects with the ORIGINAL error. -/
def responseInterceptor (refreshServer : String → Option TokenResponse)
    (e : AxiosErr) (s : ClientState) :
    ClientState × List AuthCall × InterceptResult :=
  let originalRequest := e.config
  if refreshGuard e s then
    let originalRequest := { originalRequest with retryMark := true }
    match refreshAccessToken refreshServer s with
    | (s1, calls, RefreshOutcome.success newAccessToken) =>
      (s1, calls, InterceptResult.retried
        { originalRequest with authHeader := some ("Bearer " ++ newAccessToken) })
    | (s1, calls, RefreshOutcome.noToken) =>
      (s1, calls, InterceptResult.rejected e)
    | (s1, calls, RefreshOutcome.failure) =>
      let (s2, calls2, _) := handleLogout false false s1
      (s2, calls ++ calls2, InterceptResult.rejected e)
  else
    (s, [], InterceptResult.rejected e)

/-- The synchronous prefix of the interceptor handler for one rejected
request (AuthContext.tsx lines 115-131), used to model requests failing
concurrently. Under JavaScript run-to-completion semantics the async
handler executes synchronously up to its first `await`: it evaluates the
guard, sets the request's own `_retry` marker, and calls
`refreshAccessToken`, which reads the shared `refreshTokenRef` and
dispatches the POST /auth/refresh request before suspending on its own
`await`. No shared client state is written before that suspension point
(the `_retry` marker lives on the request object, and `persistTokens` /
`handleLogout` run only after the awaited response arrives), so this
prefix returns the marked request and the dispatched calls and leaves
`ClientState` unchanged. -/
def interceptorSyncPhase (e : AxiosErr) (s : ClientState) :
    RequestConfig × List AuthCall :=
  if refreshGuard e s then
    ({ e.config with retryMark := true },
      match s.refreshTokenRef with
      | some rt => [AuthCall.refresh rt]
      | none => [])
  else
    (e.config, [])

/-- Two requests fail with 401 at nearly the same moment (spec Scenario B):
both rejection handlers run their synchronous prefixes back-to-back before
either refresh response can arrive, and neither prefix writes any shared
state, so the second handler sees the same `ClientState` as the first. The
result is the concatenated list of auth requests dispatched before the
first suspension. -/
def concurrent401Calls (e1 e2 : AxiosErr) (s : ClientState) : List AuthCall :=
  (interceptorSyncPhase e1 s).2 ++ (interceptorSyncPhase e2 s).2

/-- Is a dispatched call a POST /auth/refresh? -/
def AuthCall.isRefresh : AuthCall → Bool
  | AuthCall.refresh _ => true
  | AuthCall.logout _ => false

/-- hasRole (AuthContext.tsx lines 175-184): false when no user is logged in
or when the required-role list is empty; otherwise true iff some required
role appears among the names of the user's roles. -/
def hasRole (user : Option AuthenticatedUser) (roles : List String) : Bool :=
  match user with
  | none => false
  | some u =>
    if roles.length = 0 then false
    else
      let roleNames := u.roles.map Role.name
      roles.any (fun role => roleNames.contains role)

/-- Modelled from the spec (§4.4 Authorization Gate): `authorize(claims,
requiredRoles)` is allowed iff the intersection of claims.roles and
requiredRoles is non-empty OR requiredRoles is empty. Stated only to be
compared with the source's `hasRole`. -/
def authorizeSpec (claimRoles : List String) (requiredRoles : List String) : Bool :=
  requiredRoles.isEmpty || claimRoles.any (fun r => requiredRoles.contains r)

/-- What a role-gated route renders (RequireRole component). -/
inductive RouteOutcome where
  | checking
  | toLogin
  | toHome
  | content
deriving DecidableEq, Repr

/-- RequireRole (route guard): while loading show the checking message;
with no user, navigate to /login; with a user lacking every required role,
navigate to /; otherwise render the protected children. -/
def RequireRole (loading : Bool) (user : Option AuthenticatedUser)
    (roles : List String) : RouteOutcome :=
  if loading then RouteOutcome.checking
  else if user.isNone then RouteOutcome.toLogin
  else if !hasRole user roles then RouteOutcome.toHome
  else RouteOutcome.content

/-- login (AuthContext.tsx lines 153-161): await authApi.login, persist the
token pair, await authApi.me, set the user. Each awaited call's result is
passed in (`Except Unit` - the error payload is irrelevant here); the
returned Bool is true when login completed without throwing. -/
def login (loginServer : Except Unit TokenResponse)
    (meServer : Except Unit AuthenticatedUser) (s : ClientState) :
    ClientState × Bool :=
  match loginServer with
  | Except.error _ => (s, false)
  | Except.ok data =>
    let s1 := persistTokens data s
    match meServer with
    | Except.error _ => (s1, false)
    | Except.ok profile => ({ s1 with user := some profile }, true)

end DimesAuth

namespace DimesReview

/-- ReviewModerationVerdict (api/client.ts lines 86-93). Score values are
JavaScript numbers, carried opaquely as rationals; nothing in the embedded
logic computes with them. -/
structure ReviewModerationVerdict where
  allowed : Bool
  blockedReasons : List String
  message : String
  scores : List (String × Rat)
  modelVersion : String
  suggestion : Option String
deriving DecidableEq, Repr

/-- The `detail` field of an error response body, as the catch handler in
ReviewForm.handleSubmit reads it: either a structured moderation verdict or
a plain message string. -/
inductive ErrDetail where
  | verdict (v : ReviewModerationVerdict)
  | text (msg : String)
deriving DecidableEq, Repr

/-- An axios rejection as inspected by the catch handler:
`err.response?.status` and `err.response?.data?.detail`. -/
structure ApiError where
  status : Option Nat
  detail : Option ErrDetail
deriving DecidableEq, Repr

/-- JavaScript `String.prototype.trim()` as called in
ReviewForm.handleSubmit, modelled over the character list: removes leading
and trailing whitespace. (Lean's own String.trim is defined by well-founded
recursion and does not reduce in the kernel, so the structurally recursive
form is used; on the ASCII inputs involved the two agree.) -/
def jsTrim (s : String) : String :=
  String.mk (((s.data.dropWhile Char.isWhitespace).reverse.dropWhile
    Char.isWhitespace).reverse)

/-- The form state read by handleSubmit (ReviewForm component): the selected
star rating (0 = none), the selected course id as the string value of the
select element ("" = none), and the description textarea. -/
structure ReviewFormState where
  rating : Nat
  courseId : String
  description : String
deriving DecidableEq, Repr

/-- Requests ReviewForm.handleSubmit dispatches, in order. -/
inductive ReviewCall where
  | moderate (teacher_id : Nat) (course_id : String) (text : String) (rating : Nat)
  | create (teacher_id : Nat) (course_id : String) (rating : Nat) (description : String)
deriving DecidableEq, Repr

/-- What the submission leaves on screen / hands to the caller. -/
inductive SubmitOutcome where
  | validationError (msg : String)
  | moderationFeedback (v : ReviewModerationVerdict)
  | errorMessage (msg : String)
  | serverDetail (d : ErrDetail)
  | submitted
deriving DecidableEq, Repr

/-- The catch handler of ReviewForm.handleSubmit (StarRating.tsx lines
133-148): a 422 or 400 whose detail is a verdict with allowed === false
surfaces the structured verdict; 401/403 surface fixed messages; any other
truthy detail is shown as the error; otherwise a generic failure message. -/
def catchHandler (err : ApiError) : SubmitOutcome :=
  let detailVeto : Option ReviewModerationVerdict :=
    match err.detail with
    | some (ErrDetail.verdict v) => if v.allowed = false then some v else none
    | _ => none
  match detailVeto with
  | some v =>
    if err.status = some 422 then SubmitOutcome.moderationFeedback v
    else if err.status = some 400 then SubmitOutcome.moderationFeedback v
    else if err.status = some 401 then
      SubmitOutcome.errorMessage "Your session has expired. Please log in again."
    else if err.status = some 403 then
      SubmitOutcome.errorMessage "You do not have permission to submit reviews."
    else SubmitOutcome.serverDetail (ErrDetail.verdict v)
  | none =>
    if err.status = some 401 then
      SubmitOutcome.errorMessage "Your session has expired. Please log in again."
    else if err.status = some 403 then
      SubmitOutcome.errorMessage "You do not have permission to submit reviews."
    else
      match err.detail with
      | some (ErrDetail.text msg) =>
        -- JavaScript truthiness: an empty detail string falls through to the
        -- generic message.
        if msg = "" then SubmitOutcome.errorMessage "Failed to submit review. Please try again."
        else SubmitOutcome.serverDetail (ErrDetail.text msg)
      | some d => SubmitOutcome.serverDetail d
      | none => SubmitOutcome.errorMessage "Failed to submit review. Please try again."

/-- ReviewForm.handleSubmit (StarRating.tsx lines 88-153). The three
client-side validations run first, in source order, and return before the
try block, so a failing validation dispatches no request. Otherwise
`apiClient.moderateReview` is awaited; a resolved verdict with
allowed === false is surfaced without persisting; an allowed verdict is
followed by `apiClient.createReview`; any rejection from either call goes
to the catch handler. `moderationServer` / `createServer` supply the two
calls' results. Returns the ordered list of dispatched requests and the
outcome. -/
def handleSubmit (teacherId : Nat) (st : ReviewFormState)
    (moderationServer : Except ApiError ReviewModerationVerdict)
    (createServer : Except ApiError Unit) :
    List ReviewCall × SubmitOutcome :=
  if st.rating = 0 then
    ([], SubmitOutcome.validationError "Please select a rating")
  else if st.courseId = "" then
    ([], SubmitOutcome.validationError "Please select a course")
  else if (jsTrim st.description).length < 10 then
    ([], SubmitOutcome.validationError "Description must be at least 10 characters")
  else
    let text := jsTrim st.description
    let moderateCall := ReviewCall.moderate teacherId st.courseId text st.rating
    match moderationServer with
    | Except.error e => ([moderateCall], catchHandler e)
    | Except.ok verdict =>
      if verdict.allowed = false then
        ([moderateCall], SubmitOutcome.moderationFeedback verdict)
      else
        let createCall := ReviewCall.create teacherId st.courseId st.rating text
        match createServer with
        | Except.error e => ([moderateCall, createCall], catchHandler e)
        | Except.ok _ => ([moderateCall, createCall], SubmitOutcome.submitted)

/-- Is a dispatched review call the persistence call (POST /api/reviews)? -/
def ReviewCall.isCreate : ReviewCall → Bool
  | ReviewCall.create _ _ _ _ => true
  | ReviewCall.moderate _ _ _ _ => false

/-- Is a dispatched review call the moderation call
(POST /api/reviews/moderate)? -/
def ReviewCall.isModerate : ReviewCall → Bool
  | ReviewCall.moderate _ _ _ _ => true
  | ReviewCall.create _ _ _ _ => false

/-- Modelled from the spec (§7, Scenario E): the moderation endpoint
returned a veto, `allowed:false`, whether as a 200 body or as the detail of
a 422/400 error payload. Stated only for use in the claim about vetoes. -/
def moderationVeto (moderationServer : Except ApiError ReviewModerationVerdict) :
    Option ReviewModerationVerdict :=
  match moderationServer with
  | Except.ok v => if v.allowed = false then some v else none
  | Except.error e =>
    if e.status = some 422 ∨ e.status = some 400 then
      match e.detail with
      | some (ErrDetail.verdict v) => if v.allowed = false then some v else none
      | _ => none
    else none

end DimesReview

open DimesAuth DimesReview

/-- A concrete client state holding a logged-in session and the refresh
token "refresh-1", used for concrete runs of the embedded functions. -/
def demoUser : AuthenticatedUser :=
  { id := 1, email := "u@example.com", roles := [{ id := 1, name := "viewer" }] }

def sampleState : ClientState :=
  { storage :=
      Storage.setItem (Storage.setItem (fun _ => none) ACCESS_TOKEN_KEY "old-access")
        REFRESH_TOKEN_KEY "refresh-1"
    defaultAuthHeader := some "Bearer old-access"
    accessTokenState := some "old-access"
    refreshTokenRef := some "refresh-1"
    user := some demoUser }

/-- A concrete client state with no session at all. -/
def emptyState : ClientState :=
  { storage := fun _ => none
    defaultAuthHeader := none
    accessTokenState := none
    refreshTokenRef := none
    user := none }

/-- A non-auth API request, with the `_retry` marker as given. -/
def apiReq (mark : Bool) : RequestConfig :=
  { url := "/api/teachers/1", retryMark := mark, authHeader := none }

/-- A 401 rejection of the non-auth API request. -/
def api401 (mark : Bool) : AxiosErr :=
  { config := apiReq mark, status := some 401 }

/-- A 401 rejection of the POST /auth/refresh request itself. -/
def authRefresh401 : AxiosErr :=
  { config := { url := "/auth/refresh", retryMark := false, authHeader := none }
    status := some 401 }

/-- A concrete fresh token pair returned by the server. -/
def newTokens : TokenResponse :=
  { access_token := "new-acc", refresh_token := "new-ref", token_type := "bearer" }

/-- A concrete moderation verdict allowing the review. -/
def okVerdict : ReviewModerationVerdict :=
  { allowed := true, blockedReasons := [], message := "ok", scores := [], modelVersion := "m", suggestion := none }

/-- A concrete moderation veto: allowed = false, reason PERSONAL_ATTACK. -/
def attackVerdict : ReviewModerationVerdict :=
  { allowed := false, blockedReasons := ["PERSONAL_ATTACK"], message := "blocked", scores := [], modelVersion := "m", suggestion := none }

/-- A 422 rejection carrying the veto as its structured detail. -/
def veto422 : ApiError :=
  { status := some 422, detail := some (ErrDetail.verdict attackVerdict) }

/-- A form submission with a 9-character description. -/
def shortForm : ReviewFormState :=
  { rating := 4, courseId := "10", description := "123456789" }

/-- A form submission with a 10-character description. -/
def okForm : ReviewFormState :=
  { rating := 4, courseId := "10", description := "1234567890" }

/-- C2 counterexample: the claim says an empty required-role set yields
allowed = true for every user, but `hasRole` as implemented returns false
for the empty role list even for a logged-in viewer, while the spec's
authorize yields true there. -/
theorem hasRole_empty_required_cex :
    hasRole (some demoUser) [] = false ∧ authorizeSpec ["viewer"] [] = true := by
  exact ⟨rfl, rfl⟩

/-- C2 (amended): hasRole returns true iff a user is logged in and the
intersection of the user's role names with the required-role list is
non-empty; in particular an empty required-role list yields false for every
user. -/
theorem hasRole_iff (u : Option AuthenticatedUser) (roles : List String) :
    hasRole u roles = true ↔
      ∃ usr, u = some usr ∧ ∃ r ∈ roles, r ∈ usr.roles.map Role.name := by
  cases u with
  | none => simp [hasRole]
  | some usr =>
    simp only [hasRole]
    by_cases h : roles.length = 0
    · rw [List.length_eq_zero] at h
      subst h
      simp
    · simp [h, List.any_eq_true]

/-- C9: with no authenticated user, hasRole is false for every required-role
list, and the RequireRole route guard never renders the protected content
for an anonymous visitor: once loading has finished it navigates to /login. -/
theorem anonymous_never_sees_content :
    (∀ roles, hasRole none roles = false) ∧
    (∀ (loading : Bool) (roles : List String),
        RequireRole loading none roles =
          (if loading then RouteOutcome.checking else RouteOutcome.toLogin)) := by
  constructor
  · intro roles; rfl
  · intro loading roles
    cases loading <;> simp [RequireRole, hasRole]

/-- C10: client-side logout always succeeds locally. The resulting state and
the dispatched calls do not depend on the server's answer to the revoke call
(the error is swallowed); every local slot (both storage keys, the default
header, the React access-token state, the refresh ref, the user) is cleared
no matter what; the revoke call, when dispatched, carries the refresh token
read before the clear; and with no refresh token held, refreshAccessToken
resolves to null without dispatching any request. -/
theorem logout_local_and_null_refresh :
    (∀ (n r₁ r₂ : Bool) (s : ClientState),
        (handleLogout n r₁ s).1 = (handleLogout n r₂ s).1 ∧
        (handleLogout n r₁ s).2.1 = (handleLogout n r₂ s).2.1) ∧
    (∀ (n r : Bool) (s : ClientState),
        (handleLogout n r s).1.storage ACCESS_TOKEN_KEY = none ∧
        (handleLogout n r s).1.storage REFRESH_TOKEN_KEY = none ∧
        (handleLogout n r s).1.defaultAuthHeader = none ∧
        (handleLogout n r s).1.accessTokenState = none ∧
        (handleLogout n r s).1.refreshTokenRef = none ∧
        (handleLogout n r s).1.user = none) ∧
    (∀ (r : Bool) (s : ClientState) (rt : String), s.refreshTokenRef = some rt →
        (handleLogout true r s).2.1 = [AuthCall.logout rt]) ∧
    (∀ (refreshServer : String → Option TokenResponse) (s : ClientState),
        s.refreshTokenRef = none →
        refreshAccessToken refreshServer s = (s, [], RefreshOutcome.noToken)) := by
  refine ⟨?_, ?_, ?_, ?_⟩
  · intro n r₁ r₂ s
    cases n <;> cases h : s.refreshTokenRef <;> simp [handleLogout, h]
  · intro n r s
    cases n <;> cases h : s.refreshTokenRef <;>
      simp [handleLogout, h, clearTokens, setAccessToken, Storage.removeItem,
        ACCESS_TOKEN_KEY, REFRESH_TOKEN_KEY]
  · intro r s rt h
    simp [handleLogout, h]
  · intro refreshServer s h
    simp [refreshAccessToken, h]

/-- Witness for C10 at concrete inputs: logging out of the sample session
dispatches the revoke call with its refresh token, and refreshing with no
stored refresh token resolves to null without any request. -/
theorem logout_local_and_null_refresh_witness :
    (handleLogout true true sampleState).2.1 = [AuthCall.logout "refresh-1"] ∧
    refreshAccessToken (fun _ => none) emptyState =
      (emptyState, [], RefreshOutcome.noToken) := by
  exact ⟨logout_local_and_null_refresh.2.2.1 true sampleState "refresh-1" rfl,
    logout_local_and_null_refresh.2.2.2 (fun _ => none) emptyState rfl⟩

/-- C8: persistTokens stores the access and refresh tokens under the two
storage keys, which are distinct strings, and mirrors the access token into
the default Authorization header (and React state and the refresh ref); and
both the refresh success path and the login success path persist the token
pair through persistTokens. -/
theorem tokens_persisted_distinct_keys :
    (∀ (t : TokenResponse) (s : ClientState),
        (persistTokens t s).storage ACCESS_TOKEN_KEY = some t.access_token ∧
        (persistTokens t s).storage REFRESH_TOKEN_KEY = some t.refresh_token ∧
        (persistTokens t s).defaultAuthHeader = some ("Bearer " ++ t.access_token) ∧
        (persistTokens t s).accessTokenState = some t.access_token ∧
        (persistTokens t s).refreshTokenRef = some t.refresh_token) ∧
    ACCESS_TOKEN_KEY ≠ REFRESH_TOKEN_KEY ∧
    (∀ (refreshServer : String → Option TokenResponse) (s : ClientState)
        (rt : String) (data : TokenResponse),
        s.refreshTokenRef = some rt → refreshServer rt = some data →
        (refreshAccessToken refreshServer s).1 = persistTokens data s) ∧
    (∀ (data : TokenResponse) (profile : AuthenticatedUser) (s : ClientState),
        login (Except.ok data) (Except.ok profile) s =
          ({ persistTokens data s with user := some profile }, true)) := by
  refine ⟨?_, by decide, ?_, ?_⟩
  · intro t s
    refine ⟨?_, ?_, rfl, rfl, rfl⟩
    · show (if ACCESS_TOKEN_KEY = REFRESH_TOKEN_KEY then some t.refresh_token
        else if ACCESS_TOKEN_KEY = ACCESS_TOKEN_KEY then some t.access_token
        else s.storage ACCESS_TOKEN_KEY) = some t.access_token
      rw [if_neg (by decide), if_pos rfl]
    · show (if REFRESH_TOKEN_KEY = REFRESH_TOKEN_KEY then some t.refresh_token
        else if REFRESH_TOKEN_KEY = ACCESS_TOKEN_KEY then some t.access_token
        else s.storage REFRESH_TOKEN_KEY) = some t.refresh_token
      rw [if_pos rfl]
  · intro refreshServer s rt data hrt hdata
    simp [refreshAccessToken, hrt, hdata]
  · intro data profile s
    rfl

/-- Witness for C8 at concrete inputs: a concrete refresh success and a
concrete login both leave the concrete token pair in storage. -/
theorem tokens_persisted_distinct_keys_witness :
    (refreshAccessToken (fun _ => some newTokens) sampleState).1 =
      persistTokens newTokens sampleState ∧
    login (Except.ok newTokens) (Except.ok demoUser) emptyState =
      ({ persistTokens newTokens emptyState with user := some demoUser }, true) := by
  exact ⟨tokens_persisted_distinct_keys.2.2.1 _ sampleState "refresh-1" newTokens rfl rfl,
    tokens_persisted_distinct_keys.2.2.2 newTokens demoUser emptyState⟩

/-- C3: when the guard passes and the refresh succeeds, the interceptor
re-dispatches the original request exactly once, carrying the `_retry`
marker and a Bearer header with the new access token; and any error whose
request already carries the `_retry` marker is rejected straight back to
the caller with no further refresh, so a second failure of the retried
request surfaces and no request enters the refresh path twice. -/
theorem retry_exactly_once :
    (∀ (refreshServer : String → Option TokenResponse) (e : AxiosErr)
        (s : ClientState) (rt : String) (data : TokenResponse),
        refreshGuard e s = true → s.refreshTokenRef = some rt →
        refreshServer rt = some data →
        responseInterceptor refreshServer e s =
          (persistTokens data s, [AuthCall.refresh rt],
            InterceptResult.retried
              { e.config with
                  retryMark := true
                  authHeader := some ("Bearer " ++ data.access_token) })) ∧
    (∀ (refreshServer : String → Option TokenResponse) (e : AxiosErr)
        (s : ClientState),
        e.config.retryMark = true →
        responseInterceptor refreshServer e s = (s, [], InterceptResult.rejected e)) := by
  constructor
  · intro refreshServer e s rt data hg hrt hdata
    simp [responseInterceptor, hg, refreshAccessToken, hrt, hdata]
  · intro refreshServer e s hmark
    have hg : refreshGuard e s = false := by
      simp [refreshGuard, hmark]
    simp [responseInterceptor, hg]

/-- Witness for C3 at concrete inputs: the sample 401 is retried once with
the fresh token, and an error already marked `_retry` is rejected as is. -/
theorem retry_exactly_once_witness :
    responseInterceptor (fun _ => some newTokens) (api401 false) sampleState =
      (persistTokens newTokens sampleState, [AuthCall.refresh "refresh-1"],
        InterceptResult.retried
          { (api401 false).config with
              retryMark := true
              authHeader := some ("Bearer " ++ newTokens.access_token) }) ∧
    responseInterceptor (fun _ => none) (api401 true) sampleState =
      (sampleState, [], InterceptResult.rejected (api401 true)) := by
  exact ⟨retry_exactly_once.1 _ (api401 false) sampleState "refresh-1" newTokens
      (by decide) rfl rfl,
    retry_exactly_once.2 _ (api401 true) sampleState rfl⟩

/-- C4: when the guard passes and the refresh call is rejected, the
interceptor clears every piece of local session state (both storage keys,
the default header, the React access-token state, the refresh ref, the
user), dispatches only the refresh request itself - in particular no
/auth/logout revoke call - and rejects with the ORIGINAL request's error. -/
theorem refresh_failure_local_logout :
    ∀ (refreshServer : String → Option TokenResponse) (e : AxiosErr)
      (s : ClientState) (rt : String),
      refreshGuard e s = true → s.refreshTokenRef = some rt →
      refreshServer rt = none →
      (responseInterceptor refreshServer e s).1.storage ACCESS_TOKEN_KEY = none ∧
      (responseInterceptor refreshServer e s).1.storage REFRESH_TOKEN_KEY = none ∧
      (responseInterceptor refreshServer e s).1.defaultAuthHeader = none ∧
      (responseInterceptor refreshServer e s).1.accessTokenState = none ∧
      (responseInterceptor refreshServer e s).1.refreshTokenRef = none ∧
      (responseInterceptor refreshServer e s).1.user = none ∧
      (responseInterceptor refreshServer e s).2.1 = [AuthCall.refresh rt] ∧
      (responseInterceptor refreshServer e s).2.2 = InterceptResult.rejected e := by
  intro refreshServer e s rt hg hrt hdata
  simp [responseInterceptor, hg, refreshAccessToken, hrt, hdata,
    handleLogout, clearTokens, setAccessToken, Storage.removeItem,
    ACCESS_TOKEN_KEY, REFRESH_TOKEN_KEY]

/-- Witness for C4 at concrete inputs: a failing refresh on the sample
session clears it, issues only the refresh call, and rejects the original
error. -/
theorem refresh_failure_local_logout_witness :
    (responseInterceptor (fun _ => none) (api401 false) sampleState).1.refreshTokenRef = none ∧
    (responseInterceptor (fun _ => none) (api401 false) sampleState).2.1 =
      [AuthCall.refresh "refresh-1"] ∧
    (responseInterceptor (fun _ => none) (api401 false) sampleState).2.2 =
      InterceptResult.rejected (api401 false) := by
  have h := refresh_failure_local_logout (fun _ => none) (api401 false) sampleState
    "refresh-1" (by decide) rfl rfl
  exact ⟨h.2.2.2.2.1, h.2.2.2.2.2.2.1, h.2.2.2.2.2.2.2⟩

/-- C5: an error whose request URL contains /auth/login, /auth/register or
/auth/refresh never enters the refresh-and-retry path: the interceptor
leaves the state untouched, dispatches nothing, and rejects the error
straight back to the caller, whatever its status. -/
theorem auth_routes_exempt :
    ∀ (refreshServer : String → Option TokenResponse) (e : AxiosErr)
      (s : ClientState),
      (stringIncludes e.config.url "/auth/login" = true ∨
       stringIncludes e.config.url "/auth/register" = true ∨
       stringIncludes e.config.url "/auth/refresh" = true) →
      responseInterceptor refreshServer e s = (s, [], InterceptResult.rejected e) := by
  intro refreshServer e s h
  have hroute : isAuthRoute e.config.url = true := by
    rcases h with h | h | h <;> simp [isAuthRoute, h]
  have hg : refreshGuard e s = false := by
    simp [refreshGuard, hroute]
  simp [responseInterceptor, hg]

/-- Witness for C5 at a concrete input: a 401 from POST /auth/refresh is
rejected directly, with no refresh attempt. -/
theorem auth_routes_exempt_witness :
    responseInterceptor (fun _ => some newTokens) authRefresh401 sampleState =
      (sampleState, [], InterceptResult.rejected authRefresh401) := by
  exact auth_routes_exempt _ authRefresh401 sampleState (Or.inr (Or.inr (by decide)))

/-- C1 counterexample: the claim says that for any set of concurrently
failing requests exactly one refresh request is issued, but two requests
that both receive 401 while the sample session holds a refresh token each
dispatch their own refresh call - two refresh requests, not one. -/
theorem concurrent_401_two_refreshes_cex :
    ((concurrent401Calls (api401 false)
        { config := { url := "/api/courses", retryMark := false, authHeader := none }
          status := some 401 }
        sampleState).filter AuthCall.isRefresh).length = 2 ∧ 2 ≠ 1 := by
  exact ⟨by decide, by decide⟩

/-- C1 (amended): the session client performs no refresh coalescing. The
refresh requests dispatched by a handler run are exactly those of its
synchronous prefix (so the projection used for the concurrent run is
faithful), and two requests that fail with 401 concurrently while the guard
passes for both each dispatch their own refresh call: two refresh requests
for two failing requests, each carrying the shared refresh token. -/
theorem no_refresh_coalescing :
    (∀ (refreshServer : String → Option TokenResponse) (e : AxiosErr)
        (s : ClientState),
        (responseInterceptor refreshServer e s).2.1.filter AuthCall.isRefresh =
          (interceptorSyncPhase e s).2) ∧
    (∀ (e1 e2 : AxiosErr) (s : ClientState) (rt : String),
        s.refreshTokenRef = some rt →
        refreshGuard e1 s = true → refreshGuard e2 s = true →
        concurrent401Calls e1 e2 s = [AuthCall.refresh rt, AuthCall.refresh rt]) := by
  constructor
  · intro refreshServer e s
    by_cases hg : refreshGuard e s = true
    · have hsome : s.refreshTokenRef.isSome = true := by
        by_cases h : s.refreshTokenRef.isSome = true
        · exact h
        · exfalso
          rw [Bool.not_eq_true] at h
          simp [refreshGuard, h] at hg
      obtain ⟨rt, hrt⟩ := Option.isSome_iff_exists.mp hsome
      cases hdata : refreshServer rt with
      | some data =>
        simp [responseInterceptor, hg, refreshAccessToken, hrt, hdata,
          interceptorSyncPhase, AuthCall.isRefresh]
      | none =>
        simp [responseInterceptor, hg, refreshAccessToken, hrt, hdata,
          handleLogout, interceptorSyncPhase, AuthCall.isRefresh]
    · rw [Bool.not_eq_true] at hg
      simp [responseInterceptor, hg, interceptorSyncPhase]
  · intro e1 e2 s rt hrt hg1 hg2
    simp [concurrent401Calls, interceptorSyncPhase, hg1, hg2, hrt]

/-- Witness for C1 (amended) at concrete inputs: the two sample 401s on the
sample session dispatch two refresh calls with the shared token. -/
theorem no_refresh_coalescing_witness :
    concurrent401Calls (api401 false)
        { config := { url := "/api/courses", retryMark := false, authHeader := none }
          status := some 401 }
        sampleState =
      [AuthCall.refresh "refresh-1", AuthCall.refresh "refresh-1"] := by
  exact no_refresh_coalescing.2 (api401 false)
    { config := { url := "/api/courses", retryMark := false, authHeader := none }
      status := some 401 }
    sampleState "refresh-1" rfl (by decide) (by decide)

/-- C6: a submission whose trimmed description is shorter than 10 characters
is rejected with a validation error and dispatches no request at all -
neither the moderation call nor the persistence call; and a submission with
a rating, a course and a trimmed description of at least 10 characters
dispatches the moderation call first, with any later call being the
persistence call. -/
theorem short_description_no_calls :
    (∀ (tid : Nat) (st : ReviewFormState)
        (ms : Except ApiError ReviewModerationVerdict) (cs : Except ApiError Unit),
        (jsTrim st.description).length < 10 →
        (handleSubmit tid st ms cs).1 = [] ∧
        ∃ msg, (handleSubmit tid st ms cs).2 = SubmitOutcome.validationError msg) ∧
    (∀ (tid : Nat) (st : ReviewFormState)
        (ms : Except ApiError ReviewModerationVerdict) (cs : Except ApiError Unit),
        st.rating ≠ 0 → st.courseId ≠ "" → 10 ≤ (jsTrim st.description).length →
        ∃ rest, (handleSubmit tid st ms cs).1 =
            ReviewCall.moderate tid st.courseId (jsTrim st.description) st.rating :: rest ∧
          rest.all ReviewCall.isCreate = true) := by
  constructor
  · intro tid st ms cs hlen
    by_cases hr : st.rating = 0
    · simp [handleSubmit, hr]
    · by_cases hc : st.courseId = ""
      · simp [handleSubmit, hr, hc]
      · simp [handleSubmit, hr, hc, hlen]
  · intro tid st ms cs hr hc hlen
    have hlen' : ¬(jsTrim st.description).length < 10 := by omega
    cases ms with
    | error e =>
      refine ⟨[], ?_, rfl⟩
      simp [handleSubmit, hr, hc, hlen']
    | ok verdict =>
      by_cases ha : verdict.allowed = false
      · refine ⟨[], ?_, rfl⟩
        simp [handleSubmit, hr, hc, hlen', ha]
      · refine ⟨[ReviewCall.create tid st.courseId st.rating (jsTrim st.description)], ?_, rfl⟩
        cases cs <;> simp [handleSubmit, hr, hc, hlen', ha]

/-- Witness for C6 at concrete inputs: a 9-character description dispatches
nothing and yields the length validation error; a 10-character one
dispatches the moderation call first. -/
theorem short_description_no_calls_witness :
    (handleSubmit 1 shortForm (Except.ok okVerdict) (Except.ok ())).1 = [] ∧
    (∃ msg, (handleSubmit 1 shortForm (Except.ok okVerdict) (Except.ok ())).2 =
      SubmitOutcome.validationError msg) ∧
    (∃ rest, (handleSubmit 1 okForm (Except.ok okVerdict) (Except.ok ())).1 =
        ReviewCall.moderate 1 okForm.courseId (jsTrim okForm.description)
          okForm.rating :: rest ∧
      rest.all ReviewCall.isCreate = true) := by
  have h1 := short_description_no_calls.1 1 shortForm (Except.ok okVerdict)
    (Except.ok ()) (by decide)
  have h2 := short_description_no_calls.2 1 okForm (Except.ok okVerdict)
    (Except.ok ()) (by decide) (by decide) (by decide)
  exact ⟨h1.1, h1.2, h2⟩

/-- C7: whenever the moderation endpoint returns a veto - allowed = false,
whether as a resolved verdict or inside the detail of a 422 or 400 error
payload - a valid submission dispatches exactly the moderation call (the
persistence call is never made) and the caller receives the structured
verdict, not a generic error message. -/
theorem moderation_veto_never_persisted :
    ∀ (tid : Nat) (st : ReviewFormState)
      (ms : Except ApiError ReviewModerationVerdict) (cs : Except ApiError Unit)
      (v : ReviewModerationVerdict),
      st.rating ≠ 0 → st.courseId ≠ "" → 10 ≤ (jsTrim st.description).length →
      moderationVeto ms = some v →
      (handleSubmit tid st ms cs).1 =
        [ReviewCall.moderate tid st.courseId (jsTrim st.description) st.rating] ∧
      (handleSubmit tid st ms cs).2 = SubmitOutcome.moderationFeedback v := by
  intro tid st ms cs v hr hc hlen hveto
  have hlen' : ¬(jsTrim st.description).length < 10 := by omega
  cases ms with
  | ok verdict =>
    have hv : verdict.allowed = false ∧ verdict = v := by
      by_cases ha : verdict.allowed = false
      · refine ⟨ha, ?_⟩
        simpa [moderationVeto, ha] using hveto
      · simp [moderationVeto, ha] at hveto
    obtain ⟨ha, hvv⟩ := hv
    rw [← hvv]
    simp [handleSubmit, hr, hc, hlen', ha]
  | error e =>
    have hstatus : (e.status = some 422 ∨ e.status = some 400) := by
      by_cases hst : e.status = some 422 ∨ e.status = some 400
      · exact hst
      · simp [moderationVeto, hst] at hveto
    have hdet : ∃ w, e.detail = some (ErrDetail.verdict w) ∧ w.allowed = false ∧ w = v := by
      cases hd : e.detail with
      | none => simp [moderationVeto, hstatus, hd] at hveto
      | some d =>
        cases d with
        | text msg => simp [moderationVeto, hstatus, hd] at hveto
        | verdict w =>
          by_cases ha : w.allowed = false
          · refine ⟨w, rfl, ha, ?_⟩
            simpa [moderationVeto, hstatus, hd, ha] using hveto
          · simp [moderationVeto, hstatus, hd, ha] at hveto
    obtain ⟨w, hd, ha, hvv⟩ := hdet
    have hch : catchHandler e = SubmitOutcome.moderationFeedback v := by
      rw [← hvv]
      rcases hstatus with h422 | h400
      · simp [catchHandler, hd, ha, h422]
      · by_cases h422' : e.status = some 422
        · simp [catchHandler, hd, ha, h422']
        · simp [catchHandler, hd, ha, h400, h422']
    constructor
    · simp [handleSubmit, hr, hc, hlen']
    · simp [handleSubmit, hr, hc, hlen', hch]

/-- Witness for C7 at concrete inputs: a 422 whose detail is an
allowed-false verdict with blockedReasons PERSONAL_ATTACK leaves exactly the
moderation call dispatched and surfaces that verdict. -/
theorem moderation_veto_never_persisted_witness :
    (handleSubmit 1 okForm (Except.error veto422) (Except.ok ())).1 =
      [ReviewCall.moderate 1 okForm.courseId (jsTrim okForm.description) okForm.rating] ∧
    (handleSubmit 1 okForm (Except.error veto422) (Except.ok ())).2 =
      SubmitOutcome.moderationFeedback attackVerdict := by
  exact moderation_veto_never_persisted 1 okForm (Except.error veto422)
    (Except.ok ()) attackVerdict (by decide) (by decide) (by decide) (by decide)
